import Mathlib

/-!
Shallow embedding of the entity-component / physics-collision core of the
"Project Dock-Ward" repository, together with theorems settling the claims
about it.  Times, positions and interpolation parameters are modelled over ℚ;
entity handles (`entt::entity`) are modelled as natural numbers.

The two `GameScene1` classes of the repository are embedded separately:
namespace `P3` holds the variant from `src/unnamed/part_003` and namespace
`SH` holds the variant from `src/projects/GDW/src/Sound.h`.
-/

namespace DockWard

/-- `glm::vec3`, with exact rational coordinates. -/
structure Vec3 where
  x : ℚ
  y : ℚ
  z : ℚ
deriving DecidableEq, Repr

/-- Componentwise vector addition. -/
def Vec3.add (a b : Vec3) : Vec3 := ⟨a.x + b.x, a.y + b.y, a.z + b.z⟩

/-- Scalar multiplication. -/
def Vec3.smul (k : ℚ) (a : Vec3) : Vec3 := ⟨k * a.x, k * a.y, k * a.z⟩

/-- The templated `Lerp` from the source (`part_003` lines 173-178):
`(1.0f - t) * a + b * t`, instantiated at `glm::vec3`. -/
def Lerp (a b : Vec3) (t : ℚ) : Vec3 := Vec3.add (Vec3.smul (1 - t) a) (Vec3.smul t b)

/-- An `entt::entity` handle. -/
abbrev Entity := Nat

/-- An `SMI_Collision` record: the pair of entity handles returned by
`getB1()` / `getB2()`. -/
structure SMI_Collision where
  b1 : Entity
  b2 : Entity
deriving DecidableEq, Repr

/-- The view of the entity registry that the collision-reaction code uses:
`GetRegistry().valid(e)` and `GetComponent<SMI_Physics>(e).getIdentity()`. -/
structure Registry where
  valid : Entity → Bool
  identity : Entity → Int

/-- The per-frame timer update for the clamped timer `current`
(`part_003` lines 1175-1180 / `Sound.h` lines 2823-2828):
`current += deltaTime; if (current > max) current = max;`. -/
def clampStep (mx cur dt : ℚ) : ℚ :=
  let cur := cur + dt
  if cur > mx then mx else cur

/-- The per-frame timer update for the wrapping timer `c`
(`part_003` lines 1176-1184 / `Sound.h` lines 2824-2832):
`c += deltaTime; if (c > max) c = 0;`. -/
def wrapStep (mx c dt : ℚ) : ℚ :=
  let c := c + dt
  if c > mx then 0 else c

/-- The clamped timer after a sequence of frames with the given deltas,
starting from the member-initializer value `current = 0`. -/
def clampRun (mx : ℚ) (dts : List ℚ) : ℚ := dts.foldl (clampStep mx) 0

/-- The wrapping timer after a sequence of frames with the given deltas,
starting from the member-initializer value `c = 0`. -/
def wrapRun (mx : ℚ) (dts : List ℚ) : ℚ := dts.foldl (wrapStep mx) 0

/-- The jump / grounded variables of `GameScene1` that the `Collider` pass
mutates. -/
structure JumpVars where
  grounded : Bool
  CurrentMidAirJump : Int
deriving DecidableEq, Repr

/-- One iteration of the `Collider` loop (`part_003` lines 1246-1264,
`Sound.h` lines 3252-3271): if both record entities are valid in the
registry and their identity tags are 1 and 2 in either order, set
`grounded = true` and `CurrentMidAirJump = 0`. -/
def colliderStep (reg : Registry) (s : JumpVars) (col : SMI_Collision) : JumpVars :=
  if reg.valid col.b1 && reg.valid col.b2 then
    if (reg.identity col.b1 == 1 && reg.identity col.b2 == 2)
        || (reg.identity col.b1 == 2 && reg.identity col.b2 == 1) then
      { grounded := true, CurrentMidAirJump := 0 }
    else s
  else s

/-- `GameScene1::Collider`: the loop over the `Collisions` vector. -/
def Collider (reg : Registry) (cols : List SMI_Collision) (s : JumpVars) : JumpVars :=
  cols.foldl (colliderStep reg) s

/-- Whether a collision record is a (tag 1, tag 2) pair, in either order,
between entities that are both valid in the registry. -/
def isGroundPair (reg : Registry) (col : SMI_Collision) : Bool :=
  reg.valid col.b1 && reg.valid col.b2 &&
    ((reg.identity col.b1 == 1 && reg.identity col.b2 == 2)
      || (reg.identity col.b1 == 2 && reg.identity col.b2 == 1))

/-- The keyboard state polled through `glfwGetKey` during one `Update` call
(`true` = `GLFW_PRESS`, `false` = `GLFW_RELEASE`). -/
structure Input where
  keyA : Bool
  keyD : Bool
  keyS : Bool
  keyW : Bool
  keySpace : Bool
  keyE : Bool
deriving DecidableEq, Repr

/-- Modelled from the spec: the outcome of one `Physics World` step.  The
translation unit defining `SMI_Scene::Update` (which steps the world and
harvests the step's Collision Records, spec §4.2/§4.3) is not under src/;
the integrator's numeric outcome is abstracted as the stepped player
position together with the Collision Records that the step produced. -/
structure PhysicsOracle where
  steppedPos : Vec3
  records : List SMI_Collision
deriving DecidableEq, Repr

/-- Phase events of one `Update` call, used to state the temporal-ordering
claims: reading input, a reaction pass consuming a list of Collision
Records, the physics step, the harvest of the step's records, and the
per-frame `grounded = false` reset. -/
inductive Ev where
  | input
  | reaction (consumed : List SMI_Collision)
  | step
  | harvest
  | groundedReset
deriving DecidableEq, Repr

namespace P3

/-! The `GameScene1` of `src/unnamed/part_003` (lines 180-1282). -/

/-- The mutable state of the `part_003` `GameScene1` that `Update` touches:
timers, jump bookkeeping, the player's DYNAMIC body accumulators and
position, the camera position, `door1`'s Transform position, and the
`Collisions` vector inherited from `SMI_Scene`. -/
structure State where
  max : ℚ
  current : ℚ
  c : ℚ
  JumpState : Bool
  MidAirJump : Int
  CurrentMidAirJump : Int
  grounded : Bool
  playerForce : Vec3
  playerImpulse : Vec3
  playerPos : Vec3
  camPos : Vec3
  door1Pos : Vec3
  collisions : List SMI_Collision
deriving DecidableEq, Repr

/-- The state fixed by `GameScene1`'s member initializers (`part_003`
lines 1271-1281): `max = 5`, both timers at 0, `JumpState = GLFW_RELEASE`,
`MidAirJump = 1`, `CurrentMidAirJump = 0`, `grounded = false`; positions
are whatever `InitScene` set them to, and the accumulators and record list
start empty. -/
def mkInit (playerPos camPos door1Pos : Vec3) : State :=
  { max := 5, current := 0, c := 0, JumpState := false, MidAirJump := 1,
    CurrentMidAirJump := 0, grounded := false,
    playerForce := ⟨0, 0, 0⟩, playerImpulse := ⟨0, 0, 0⟩,
    playerPos := playerPos, camPos := camPos, door1Pos := door1Pos,
    collisions := [] }

/-- Timer increments and clamping/wrapping at the top of `Update`
(`part_003` lines 1174-1186). -/
def timerPhase (dt : ℚ) (s : State) : State :=
  { s with current := clampStep s.max s.current dt, c := wrapStep s.max s.c dt }

/-- The input-reading phase of `Update` (`part_003` lines 1189-1225):
camera follow, WASD forces on the player's DYNAMIC body, the edge-triggered
jump impulse `(0,0,8)` with the mid-air-jump guard and counter, and the
`JumpState` latch. -/
def inputPhase (inp : Input) (s : State) : State :=
  let s := { s with camPos := ⟨s.playerPos.x, s.camPos.y, s.camPos.z⟩ }
  let s := if inp.keyA then { s with playerForce := s.playerForce.add ⟨5, 0, 0⟩ } else s
  let s := if inp.keyD then { s with playerForce := s.playerForce.add ⟨-5, 0, 0⟩ } else s
  let s := if inp.keyS then { s with playerForce := s.playerForce.add ⟨0, 5, 0⟩ } else s
  let s := if inp.keyW then { s with playerForce := s.playerForce.add ⟨0, -5, 0⟩ } else s
  let s :=
    if inp.keySpace && !s.JumpState
        && (s.grounded || decide (s.CurrentMidAirJump < s.MidAirJump)) then
      let s := { s with playerImpulse := s.playerImpulse.add ⟨0, 0, 8⟩ }
      if !s.grounded then { s with CurrentMidAirJump := s.CurrentMidAirJump + 1 } else s
    else s
  { s with JumpState := inp.keySpace }

/-- The scripted `door1` animation (`part_003` line 1231): `setPos` of the
Lerp between the two fixed endpoints at parameter `t = current / max`. -/
def lerpPhase (s : State) : State :=
  { s with door1Pos := Lerp ⟨-35.2, 0, 2⟩ ⟨-35.2, 0, 15⟩ (s.current / s.max) }

/-- Modelled from the spec: the `SMI_Scene::Update(deltaTime)` call
(`part_003` line 1235).  Its defining translation unit is not under src/;
per the spec it steps the Physics World (DYNAMIC bodies consuming the
accumulated forces/impulses) and harvests this step's Collision Records
into the `Collisions` vector. -/
def baseUpdate (phys : PhysicsOracle) (s : State) : State :=
  { s with playerPos := phys.steppedPos, playerForce := ⟨0, 0, 0⟩,
           playerImpulse := ⟨0, 0, 0⟩, collisions := phys.records }

/-- `grounded = false;` (`part_003` line 1237). -/
def groundedReset (s : State) : State := { s with grounded := false }

/-- The `Collider()` call (`part_003` lines 1240, 1244-1265), applied to
the scene state. -/
def colliderPhase (reg : Registry) (s : State) : State :=
  let jv := Collider reg s.collisions ⟨s.grounded, s.CurrentMidAirJump⟩
  { s with grounded := jv.grounded, CurrentMidAirJump := jv.CurrentMidAirJump }

/-- `GameScene1::Update(deltaTime)` of `part_003` (lines 1172-1241),
instrumented with the list of phase events it performs, in order. -/
def UpdateT (reg : Registry) (phys : PhysicsOracle) (inp : Input) (dt : ℚ) (s : State) :
    State × List Ev :=
  let s1 := timerPhase dt s
  let s2 := inputPhase inp s1
  let s3 := lerpPhase s2
  let s4 := baseUpdate phys s3
  let s5 := groundedReset s4
  let s6 := colliderPhase reg s5
  (s6, [Ev.input, Ev.step, Ev.harvest, Ev.groundedReset, Ev.reaction s5.collisions])

/-- `GameScene1::Update(deltaTime)` of `part_003`: the resulting state. -/
def Update (reg : Registry) (phys : PhysicsOracle) (inp : Input) (dt : ℚ) (s : State) :
    State :=
  (UpdateT reg phys inp dt s).1

end P3

namespace SH

/-! The `GameScene1` of `src/projects/GDW/src/Sound.h` (lines 2450-3314). -/

/-- The mutable state of the `Sound.h` `GameScene1` that `Update` touches.
`dtCur` is the local `deltaTime` parameter (the level-end reactions assign
`deltaTime = 0.0` before it is passed on to `SMI_Scene::Update`), and
`exited` records that `exit(1)` was invoked, after which nothing else in
the call runs.  Several reactions write positions through by-value copies
of the `SMI_Physics` component; a copy shares the native rigid body, so
per spec §4.1 the write still moves the entity's body, which is how the
position fields here are updated. -/
structure State where
  max : ℚ
  current : ℚ
  c : ℚ
  JumpState : Bool
  MidAirJump : Int
  CurrentMidAirJump : Int
  grounded : Bool
  playerForce : Vec3
  playerImpulse : Vec3
  playerPos : Vec3
  camPos : Vec3
  fanRot : Vec3
  fan2Rot : Vec3
  fan3Rot : Vec3
  elevatorPos : Vec3
  door1Pos : Vec3
  bulletPos : Vec3
  glidePos : Vec3
  door2Pos : Vec3
  buttonPos : Vec3
  button1Pos : Vec3
  door3Pos : Vec3
  door4TPos : Vec3
  door4PPos : Vec3
  button6Pos : Vec3
  button7Pos : Vec3
  enPos : Vec3
  en1Pos : Vec3
  door7Pos : Vec3
  planksPos : Vec3
  door8Pos : Vec3
  fan3Pos : Vec3
  edPos : Vec3
  ed1Pos : Vec3
  collisions : List SMI_Collision
  dtCur : ℚ
  exited : Bool
deriving DecidableEq, Repr

/-- Timer increments and clamping/wrapping at the top of `Update`
(`Sound.h` lines 2822-2832). -/
def timerPhase (dt : ℚ) (s : State) : State :=
  if s.exited then s else
  { s with current := clampStep s.max s.current dt, c := wrapStep s.max s.c dt }

/-- The input-reading phase (`Sound.h` lines 2838-2867): camera follow,
A/D forces on the player's DYNAMIC body, the edge-triggered jump impulse
`(0,0,6)` with the mid-air-jump guard and counter, and the `JumpState`
latch. -/
def inputPhase (inp : Input) (s : State) : State :=
  if s.exited then s else
  let s := { s with camPos := ⟨s.playerPos.x, s.camPos.y, s.camPos.z⟩ }
  let s := if inp.keyA then { s with playerForce := s.playerForce.add ⟨5, 0, 0⟩ } else s
  let s := if inp.keyD then { s with playerForce := s.playerForce.add ⟨-5, 0, 0⟩ } else s
  let s :=
    if inp.keySpace && !s.JumpState
        && (s.grounded || decide (s.CurrentMidAirJump < s.MidAirJump)) then
      let s := { s with playerImpulse := s.playerImpulse.add ⟨0, 0, 6⟩ }
      if !s.grounded then { s with CurrentMidAirJump := s.CurrentMidAirJump + 1 } else s
    else s
  { s with JumpState := inp.keySpace }

/-- The scripted animations before the reaction loops (`Sound.h` lines
2873-2895): the fans `FixedRotate` by `(30,0,0) * deltaTime * 50`
(`SMI_Transform::FixedRotate` is modelled from the spec as adding the
degree vector to the orientation, its translation unit not being under
src/), and the elevator, `door1`, bullet and glide bodies are set to the
Lerp at parameter `time = c / max`. -/
def animPhase (time : ℚ) (s : State) : State :=
  if s.exited then s else
  { s with
    fanRot := s.fanRot.add (Vec3.smul (s.dtCur * 50) ⟨30, 0, 0⟩),
    fan2Rot := s.fan2Rot.add (Vec3.smul (s.dtCur * 50) ⟨30, 0, 0⟩),
    fan3Rot := s.fan3Rot.add (Vec3.smul (s.dtCur * 50) ⟨30, 0, 0⟩),
    elevatorPos := Lerp ⟨-75, 7, 1.8⟩ ⟨-75, 7, 8.8⟩ time,
    door1Pos := Lerp ⟨-46, 9.5, 15⟩ ⟨-46, 9.5, 2⟩ time,
    bulletPos := Lerp ⟨-179, 7.2, 3.9⟩ ⟨-168, 7.2, 3.9⟩ time,
    glidePos := Lerp ⟨-198.7, 7, 2.3⟩ ⟨-198.7, 7, -6.3⟩ time }

/-- One iteration of the first reaction loop (`Sound.h` lines 2904-2931):
fires only when `identity(b1) == 1 && identity(b2) == 3`, moving `door2`,
`button` and `button1` to their Lerp positions at parameter `t`. -/
def step_1_3 (reg : Registry) (t : ℚ) (s : State) (col : SMI_Collision) : State :=
  if s.exited then s else
  if reg.valid col.b1 && reg.valid col.b2 then
    if reg.identity col.b1 == 1 && reg.identity col.b2 == 3 then
      { s with door2Pos := Lerp ⟨-151, 7, 2.5⟩ ⟨151, 7, 6.5⟩ t,
               buttonPos := Lerp ⟨-158, 6.7, 2.1⟩ ⟨-158, -34.7, 2.1⟩ t,
               button1Pos := Lerp ⟨-158, -34.7, 2.1⟩ ⟨-158, 6.7, 2.1⟩ t }
    else s
  else s

/-- One iteration of the second reaction loop (`Sound.h` lines 2933-2959):
if `(identity(b1) == 4 && identity(b2) == 5) || (identity(b1) == 1 &&
identity(b2) == 5)`, open `door3`; else if `identity(b1) == 2 &&
identity(b2) == 4`, set `door3` to the degenerate Lerp with equal
endpoints. -/
def step_4_5 (reg : Registry) (t : ℚ) (s : State) (col : SMI_Collision) : State :=
  if s.exited then s else
  if reg.valid col.b1 && reg.valid col.b2 then
    if (reg.identity col.b1 == 4 && reg.identity col.b2 == 5)
        || (reg.identity col.b1 == 1 && reg.identity col.b2 == 5) then
      { s with door3Pos := Lerp ⟨-166.7, 7, 2.5⟩ ⟨-166.7, -34, 2.5⟩ t }
    else if reg.identity col.b1 == 2 && reg.identity col.b2 == 4 then
      { s with door3Pos := Lerp ⟨-166.7, 7, 2.5⟩ ⟨-166.7, 7, 2.5⟩ t }
    else s
  else s

/-- One iteration of the third reaction loop (`Sound.h` lines 2961-2996):
fires only when `identity(b1) == 1 && identity(b2) == 6`, moving the
`door4` Transform and physics body and the `button6`/`button7` bodies. -/
def step_1_6 (reg : Registry) (t : ℚ) (s : State) (col : SMI_Collision) : State :=
  if s.exited then s else
  if reg.valid col.b1 && reg.valid col.b2 then
    if reg.identity col.b1 == 1 && reg.identity col.b2 == 6 then
      { s with door4TPos := Lerp ⟨-12.5, 9.2, 2⟩ ⟨-12.5, -9.2, 2⟩ t,
               door4PPos := Lerp ⟨-12.5, 9.2, 2⟩ ⟨-12.5, -9.2, 2⟩ t,
               button6Pos := Lerp ⟨-12.5, 7.7, 15.1⟩ ⟨-12.5, -87.7, 15.1⟩ t,
               button7Pos := Lerp ⟨-12.5, -87.7, 15.1⟩ ⟨-12.5, 7.7, 15.1⟩ t }
    else s
  else s

/-- One iteration of the level-end reaction loops (`Sound.h` lines
2998-3017, 3019-3043, 3045-3071, 3180-3207, 3235-3262 in kind): fires
when the identity tags are `(1, tag)` in either order; the camera snaps to
the end marker's x, the frame delta is zeroed, and `exit(1)` runs if the E
key is held. -/
def endStep (reg : Registry) (inp : Input) (tag : Int) (marker : State → Vec3)
    (s : State) (col : SMI_Collision) : State :=
  if s.exited then s else
  if reg.valid col.b1 && reg.valid col.b2 then
    if (reg.identity col.b1 == 1 && reg.identity col.b2 == tag)
        || (reg.identity col.b1 == tag && reg.identity col.b2 == 1) then
      let s := { s with camPos := ⟨(marker s).x, s.camPos.y, s.camPos.z⟩, dtCur := 0 }
      if inp.keyE then { s with exited := true } else s
    else s
  else s

/-- One iteration of the (10,11) reaction loop (`Sound.h` lines
3073-3106): checked in both orders; teleports the bullet, the two enemies
and `door7` to fixed positions. -/
def step_10_11 (reg : Registry) (s : State) (col : SMI_Collision) : State :=
  if s.exited then s else
  if reg.valid col.b1 && reg.valid col.b2 then
    if (reg.identity col.b1 == 10 && reg.identity col.b2 == 11)
        || (reg.identity col.b1 == 11 && reg.identity col.b2 == 10) then
      { s with bulletPos := ⟨-168, 7.2, 68.9⟩,
               enPos := ⟨-181, 400.8, 2.2⟩,
               en1Pos := ⟨-181, 7.2, 2.3⟩,
               door7Pos := ⟨-185.7, -47, 2.5⟩ }
    else s
  else s

/-- One iteration of the (1,12) reaction loop (`Sound.h` lines 3108-3130):
checked in both orders; drops the planks. -/
def step_1_12 (reg : Registry) (s : State) (col : SMI_Collision) : State :=
  if s.exited then s else
  if reg.valid col.b1 && reg.valid col.b2 then
    if (reg.identity col.b1 == 1 && reg.identity col.b2 == 12)
        || (reg.identity col.b1 == 12 && reg.identity col.b2 == 1) then
      { s with planksPos := ⟨-182.5, 6.5, -434.8⟩ }
    else s
  else s

/-- One iteration of the (1,13) reaction loop (`Sound.h` lines 3132-3154):
checked in both orders; moves `door8`. -/
def step_1_13 (reg : Registry) (s : State) (col : SMI_Collision) : State :=
  if s.exited then s else
  if reg.valid col.b1 && reg.valid col.b2 then
    if (reg.identity col.b1 == 1 && reg.identity col.b2 == 13)
        || (reg.identity col.b1 == 13 && reg.identity col.b2 == 1) then
      { s with door8Pos := ⟨-209, 327, 2.5⟩ }
    else s
  else s

/-- One iteration of the (15,13) reaction loop (`Sound.h` lines
3209-3233): checked in both orders; moves `fan3`'s physics body. -/
def step_15_13 (reg : Registry) (s : State) (col : SMI_Collision) : State :=
  if s.exited then s else
  if reg.valid col.b1 && reg.valid col.b2 then
    if (reg.identity col.b1 == 15 && reg.identity col.b2 == 13)
        || (reg.identity col.b1 == 13 && reg.identity col.b2 == 15) then
      { s with fan3Pos := ⟨-223.5, 7.2, 434.8⟩ }
    else s
  else s

/-- The twelve reaction loops, each a pass over the `Collisions` vector,
in the order they appear in `Sound.h` lines 2904-3262. -/
def dispatch (reg : Registry) (inp : Input) (t : ℚ) (s : State) : State :=
  let s := s.collisions.foldl (step_1_3 reg t) s
  let s := s.collisions.foldl (step_4_5 reg t) s
  let s := s.collisions.foldl (step_1_6 reg t) s
  let s := s.collisions.foldl (endStep reg inp 7 (fun u => u.edPos)) s
  let s := s.collisions.foldl (endStep reg inp 8 (fun u => u.edPos)) s
  let s := s.collisions.foldl (endStep reg inp 9 (fun u => u.edPos)) s
  let s := s.collisions.foldl (step_10_11 reg) s
  let s := s.collisions.foldl (step_1_12 reg) s
  let s := s.collisions.foldl (step_1_13 reg) s
  let s := s.collisions.foldl (endStep reg inp 14 (fun u => u.edPos)) s
  let s := s.collisions.foldl (step_15_13 reg) s
  let s := s.collisions.foldl (endStep reg inp 16 (fun u => u.ed1Pos)) s
  s

/-- Modelled from the spec: the `SMI_Scene::Update(deltaTime)` call
(`Sound.h` line 3239).  Its defining translation unit is not under src/;
per the spec it steps the Physics World (DYNAMIC bodies consuming the
accumulated forces/impulses) and harvests this step's Collision Records
into the `Collisions` vector.  The integrator's outcome is abstracted as
a `PhysicsOracle`. -/
def baseUpdate (phys : PhysicsOracle) (s : State) : State :=
  if s.exited then s else
  { s with playerPos := phys.steppedPos, playerForce := ⟨0, 0, 0⟩,
           playerImpulse := ⟨0, 0, 0⟩, collisions := phys.records }

/-- `grounded = false;` (`Sound.h` line 3241). -/
def groundedReset (s : State) : State :=
  if s.exited then s else { s with grounded := false }

/-- The `Collider()` call (`Sound.h` lines 3244, 3250-3272), applied to
the scene state. -/
def colliderPhase (reg : Registry) (s : State) : State :=
  if s.exited then s else
  let jv := Collider reg s.collisions ⟨s.grounded, s.CurrentMidAirJump⟩
  { s with grounded := jv.grounded, CurrentMidAirJump := jv.CurrentMidAirJump }

/-- Helper for the instrumented update: a phase that did not run (because
`exit(1)` already fired) contributes no events. -/
def evIf (exited : Bool) (es : List Ev) : List Ev := if exited then [] else es

/-- `GameScene1::Update(deltaTime)` of `Sound.h` (lines 2819-3247),
instrumented with the list of phase events it performs, in order.  Note
that the twelve tag-pair reaction loops run before the
`SMI_Scene::Update` physics step, so they consume whatever Collision
Records are still in the `Collisions` vector from the previous step. -/
def UpdateT (reg : Registry) (phys : PhysicsOracle) (inp : Input) (dt : ℚ) (s : State) :
    State × List Ev :=
  let s0 := if s.exited then s else { s with dtCur := dt }
  let s1 := timerPhase dt s0
  let t := s1.current / s1.max
  let time := s1.c / s1.max
  let s2 := inputPhase inp s1
  let s3 := animPhase time s2
  let s4 := s3.collisions.foldl (step_1_3 reg t) s3
  let s5 := s4.collisions.foldl (step_4_5 reg t) s4
  let s6 := s5.collisions.foldl (step_1_6 reg t) s5
  let s7 := s6.collisions.foldl (endStep reg inp 7 (fun u => u.edPos)) s6
  let s8 := s7.collisions.foldl (endStep reg inp 8 (fun u => u.edPos)) s7
  let s9 := s8.collisions.foldl (endStep reg inp 9 (fun u => u.edPos)) s8
  let s10 := s9.collisions.foldl (step_10_11 reg) s9
  let s11 := s10.collisions.foldl (step_1_12 reg) s10
  let s12 := s11.collisions.foldl (step_1_13 reg) s11
  let s13 := s12.collisions.foldl (endStep reg inp 14 (fun u => u.edPos)) s12
  let s14 := s13.collisions.foldl (step_15_13 reg) s13
  let s15 := s14.collisions.foldl (endStep reg inp 16 (fun u => u.ed1Pos)) s14
  let s16 := baseUpdate phys s15
  let s17 := groundedReset s16
  let s18 := colliderPhase reg s17
  (s18,
    evIf s0.exited [Ev.input]
    ++ evIf s3.exited [Ev.reaction s3.collisions]
    ++ evIf s4.exited [Ev.reaction s4.collisions]
    ++ evIf s5.exited [Ev.reaction s5.collisions]
    ++ evIf s6.exited [Ev.reaction s6.collisions]
    ++ evIf s7.exited [Ev.reaction s7.collisions]
    ++ evIf s8.exited [Ev.reaction s8.collisions]
    ++ evIf s9.exited [Ev.reaction s9.collisions]
    ++ evIf s10.exited [Ev.reaction s10.collisions]
    ++ evIf s11.exited [Ev.reaction s11.collisions]
    ++ evIf s12.exited [Ev.reaction s12.collisions]
    ++ evIf s13.exited [Ev.reaction s13.collisions]
    ++ evIf s14.exited [Ev.reaction s14.collisions]
    ++ evIf s15.exited [Ev.step, Ev.harvest]
    ++ evIf s16.exited [Ev.groundedReset]
    ++ evIf s17.exited [Ev.reaction s17.collisions])

/-- `GameScene1::Update(deltaTime)` of `Sound.h`: the resulting state. -/
def Update (reg : Registry) (phys : PhysicsOracle) (inp : Input) (dt : ℚ) (s : State) :
    State :=
  (UpdateT reg phys inp dt s).1

end SH

/-! Attach / Remove of the `SMI_Physics` component (`src/unnamed/part_007`,
the `SMI_Scene` template member functions). -/

/-- Modelled from the spec: the `SMI_Physics` component as the attach and
remove code of `part_007` uses it — the class's own translation unit is
not under src/.  It carries the native rigid body handle (`btRigidBody*`,
modelled as an opaque id covering the body together with its motion state
and collision shape), the entity back-reference set by `setEntity`, the
"in world" flag set by `setInWorld`, and the gameplay identity tag
(spec §3). -/
structure SMI_Physics where
  body : Nat
  entity : Entity
  inWorld : Bool
  identity : Int
deriving DecidableEq, Repr

/-- The state that `SMI_Scene`'s attach/remove code touches: the entt
store's `SMI_Physics` components keyed by entity, and the Physics World's
registered rigid bodies (`addRigidBody` / `removeRigidBody`) as a
multiset of body handles. -/
structure SceneReg where
  store : Entity → Option SMI_Physics
  world : List Nat

/-- `SMI_Scene::Attach<SMI_Physics>` (`part_007` lines 112-124):
`Store.emplace<T>(target)` default-constructs the component (the default
constructor is not under src/, so the freshly constructed value is a
parameter), then `setEntity(target)`, `physicsWorld->addRigidBody(...)`
and `setInWorld(true)`. -/
def Attach (fresh : SMI_Physics) (sc : SceneReg) (target : Entity) : SceneReg :=
  { store := fun e =>
      if e = target then some { fresh with entity := target, inWorld := true }
      else sc.store e,
    world := sc.world ++ [fresh.body] }

/-- `SMI_Scene::AttachCopy<SMI_Physics>` (`part_007` lines 126-137):
`Store.emplace_or_replace<T>(target, copy)`, then `setEntity(target)`,
`physicsWorld->addRigidBody(...)` and `setInWorld(true)`. -/
def AttachCopy (sc : SceneReg) (target : Entity) (copy : SMI_Physics) : SceneReg :=
  { store := fun e =>
      if e = target then some { copy with entity := target, inWorld := true }
      else sc.store e,
    world := sc.world ++ [copy.body] }

/-- The observable resource events of `Remove<SMI_Physics>`, in the order
the code performs them: `delete TargetBody->getMotionState()`,
`delete TargetBody->getCollisionShape()`,
`physicsWorld->removeRigidBody(TargetBody)`, `delete TargetBody`, and
`Store.remove<T>(target)`. -/
inductive ResEv where
  | destroyMotionState (body : Nat)
  | destroyShape (body : Nat)
  | deregister (body : Nat)
  | destroyBody (body : Nat)
  | dropComponent (target : Entity)
deriving DecidableEq, Repr

/-- `SMI_Scene::Remove<SMI_Physics>` (`part_007` lines 147-163): fetch the
rigid body of the stored component, `delete` its motion state, `delete`
its collision shape, `removeRigidBody` it from the Physics World,
`delete` the body, then `Store.remove` the component.  Returns the new
state paired with the resource events in the order performed.  (Calling
it on an entity without the component violates `Store.get`'s
precondition; the model leaves the state unchanged there.) -/
def Remove (sc : SceneReg) (target : Entity) : SceneReg × List ResEv :=
  match sc.store target with
  | some phys =>
      ({ store := fun e => if e = target then none else sc.store e,
         world := sc.world.erase phys.body },
       [ResEv.destroyMotionState phys.body, ResEv.destroyShape phys.body,
        ResEv.deregister phys.body, ResEv.destroyBody phys.body,
        ResEv.dropComponent target])
  | none => (sc, [])

/-! Predicates formalizing the temporal/ordering claims, and concrete
fixtures used by witnesses and counterexamples. -/

/-- Whether an event is the physics step. -/
def Ev.isStep : Ev → Bool
  | .step => true
  | _ => false

/-- Whether an event is a reaction pass that consumed at least one
Collision Record. -/
def Ev.isRealReaction : Ev → Bool
  | .reaction (_ :: _) => true
  | _ => false

/-- The ordering property claim C3 asserts of one `Update` call's event
trace: no reaction pass that consumes Collision Records occurs before the
physics step. -/
def reactionsAfterStep (tr : List Ev) : Bool :=
  (tr.takeWhile (fun e => ! e.isStep)).all (fun e => ! e.isRealReaction)

/-- The consumption property claim C3 asserts: every reaction pass of the
call consumes exactly the Collision Records `produced` by this call's
physics step. -/
def consumesOwn (produced : List SMI_Collision) (tr : List Ev) : Bool :=
  tr.all (fun e =>
    match e with
    | .reaction l => l == produced
    | _ => true)

/-- The ordering property claim C7 asserts of `Remove`'s resource-event
trace: the body is deregistered from the Physics World strictly before
its motion state and its collision shape are destroyed. -/
def deregBeforeRelease (tr : List ResEv) (b : Nat) : Bool :=
  decide (tr.indexOf (ResEv.deregister b) < tr.indexOf (ResEv.destroyMotionState b)) &&
  decide (tr.indexOf (ResEv.deregister b) < tr.indexOf (ResEv.destroyShape b))

/-- Fixture: a registry with entities 1 (the player, tag 1) and 2 (the
ground, tag 2) valid. -/
def regW : Registry :=
  { valid := fun e => e == 1 || e == 2,
    identity := fun e => if e == 1 then 1 else 2 }

/-- Fixture: a physics-step outcome producing one (player, ground)
collision record. -/
def physW : PhysicsOracle := ⟨⟨0, 0, 0⟩, [⟨1, 2⟩]⟩

/-- Fixture: a physics-step outcome producing no collision records. -/
def physNone : PhysicsOracle := ⟨⟨0, 0, 0⟩, []⟩

/-- Fixture: no key held. -/
def inpW : Input := ⟨false, false, false, false, false, false⟩

/-- Fixture: only the space (jump) key held. -/
def inpSpace : Input := ⟨false, false, false, false, true, false⟩

/-- Fixture: the freshly initialized `part_003` scene state. -/
def p3s0 : P3.State := P3.mkInit ⟨0, 0, 0⟩ ⟨0, 0, 0⟩ ⟨0, 0, 0⟩

/-- Fixture: a `Sound.h` scene state in mid-play, with one (player,
ground) collision record left in the `Collisions` vector from the
previous frame's step. -/
def shs0 : SH.State :=
  { max := 5, current := 0, c := 0, JumpState := false, MidAirJump := 1,
    CurrentMidAirJump := 0, grounded := false,
    playerForce := ⟨0, 0, 0⟩, playerImpulse := ⟨0, 0, 0⟩, playerPos := ⟨0, 0, 0⟩,
    camPos := ⟨0, 0, 0⟩, fanRot := ⟨0, 0, 0⟩, fan2Rot := ⟨0, 0, 0⟩,
    fan3Rot := ⟨0, 0, 0⟩, elevatorPos := ⟨0, 0, 0⟩, door1Pos := ⟨0, 0, 0⟩,
    bulletPos := ⟨0, 0, 0⟩, glidePos := ⟨0, 0, 0⟩, door2Pos := ⟨0, 0, 0⟩,
    buttonPos := ⟨0, 0, 0⟩, button1Pos := ⟨0, 0, 0⟩, door3Pos := ⟨0, 0, 0⟩,
    door4TPos := ⟨0, 0, 0⟩, door4PPos := ⟨0, 0, 0⟩, button6Pos := ⟨0, 0, 0⟩,
    button7Pos := ⟨0, 0, 0⟩, enPos := ⟨0, 0, 0⟩, en1Pos := ⟨0, 0, 0⟩,
    door7Pos := ⟨0, 0, 0⟩, planksPos := ⟨0, 0, 0⟩, door8Pos := ⟨0, 0, 0⟩,
    fan3Pos := ⟨0, 0, 0⟩, edPos := ⟨0, 0, 0⟩, ed1Pos := ⟨0, 0, 0⟩,
    collisions := [⟨1, 2⟩], dtCur := 0, exited := false }

/-- Fixture: a registry where entity 10 carries identity tag 3 and entity
11 carries identity tag 1 (both valid), so the record ⟨10, 11⟩ presents
the (1,3) tag pair with the tag-3 entity first. -/
def regC4 : Registry :=
  { valid := fun e => e == 10 || e == 11,
    identity := fun e => if e == 10 then 3 else 1 }

/-- Fixture: a scene-registry state with entity 5 holding a physics body
with native handle 3, that body being the only one registered. -/
def scC7 : SceneReg :=
  { store := fun e => if e = 5 then some ⟨3, 5, true, 1⟩ else none,
    world := [3] }

/-! Helper lemmas. -/

/-- A projection preserved by every fold step is preserved by the fold. -/
theorem foldl_preserves {σ α β : Type _} (f : σ → α → σ) (g : σ → β)
    (h : ∀ s a, g (f s a) = g s) (l : List α) (s : σ) : g (l.foldl f s) = g s := by
  induction l generalizing s with
  | nil => rfl
  | cons a l ih => rw [List.foldl_cons, ih, h]

theorem colliderStep_eq (reg : Registry) (s : JumpVars) (col : SMI_Collision) :
    colliderStep reg s col =
      if isGroundPair reg col then { grounded := true, CurrentMidAirJump := 0 } else s := by
  unfold colliderStep isGroundPair
  by_cases h1 : (reg.valid col.b1 && reg.valid col.b2) = true <;>
    by_cases h2 : ((reg.identity col.b1 == 1 && reg.identity col.b2 == 2)
        || (reg.identity col.b1 == 2 && reg.identity col.b2 == 1)) = true <;>
    simp [h1, h2]

/-- Closed form of the `Collider` loop: it sets `grounded = true` and
`CurrentMidAirJump = 0` exactly when some record is a valid (1,2) pair,
and otherwise leaves the state unchanged. -/
theorem Collider_eq (reg : Registry) (cols : List SMI_Collision) (s : JumpVars) :
    Collider reg cols s =
      if cols.any (isGroundPair reg) then { grounded := true, CurrentMidAirJump := 0 }
      else s := by
  induction cols generalizing s with
  | nil => simp [Collider]
  | cons c cs ih =>
    simp only [Collider, List.foldl_cons, List.any_cons]
    rw [show List.foldl (colliderStep reg) (colliderStep reg s c) cs
          = Collider reg cs (colliderStep reg s c) from rfl, ih, colliderStep_eq]
    by_cases hc : isGroundPair reg c = true <;>
      by_cases hcs : cs.any (isGroundPair reg) = true <;> simp [hc, hcs]

/-- The clamped timer update is exactly `min (cur + dt) max`. -/
theorem clampStep_eq_min (mx cur dt : ℚ) : clampStep mx cur dt = min (cur + dt) mx := by
  show (if cur + dt > mx then mx else cur + dt) = min (cur + dt) mx
  split_ifs with h
  · exact (min_eq_right h.le).symm
  · exact (min_eq_left (not_lt.mp h)).symm

/-- Running the clamped timer over nonnegative frame deltas yields
`min (total elapsed) max`. -/
theorem clampRun_eq_min (mx : ℚ) (hmx : 0 ≤ mx) (dts : List ℚ)
    (h : ∀ d ∈ dts, 0 ≤ d) : clampRun mx dts = min dts.sum mx := by
  suffices H : ∀ l : List ℚ, (∀ d ∈ l, 0 ≤ d) →
      ∀ a : ℚ, l.foldl (clampStep mx) (min a mx) = min (a + l.sum) mx by
    have h0 : (0 : ℚ) = min 0 mx := (min_eq_left hmx).symm
    have := H dts h 0
    rw [zero_add] at this
    rw [clampRun, h0, this]
  intro l
  induction l with
  | nil => intro _ a; simp
  | cons d l ih =>
    intro hmem a
    have hd : 0 ≤ d := hmem d (by simp)
    have key : clampStep mx (min a mx) d = min (a + d) mx := by
      rw [clampStep_eq_min]
      rcases le_total a mx with hle | hle
      · rw [min_eq_left hle]
      · rw [min_eq_right hle, min_eq_right (by linarith), min_eq_right (by linarith)]
    rw [List.foldl_cons, key, ih (fun x hx => hmem x (by simp [hx])), List.sum_cons,
      add_assoc]

/-- The wrapping timer stays in `[0, max]` across one update. -/
theorem wrapStep_mem (mx c dt : ℚ) (hmx : 0 ≤ mx) (hc : 0 ≤ c) (hdt : 0 ≤ dt) :
    0 ≤ wrapStep mx c dt ∧ wrapStep mx c dt ≤ mx := by
  show (0 ≤ if c + dt > mx then 0 else c + dt) ∧ (if c + dt > mx then 0 else c + dt) ≤ mx
  split_ifs with h
  · exact ⟨le_refl 0, hmx⟩
  · exact ⟨add_nonneg hc hdt, not_lt.mp h⟩

/-- Running the wrapping timer over nonnegative frame deltas keeps it in
`[0, max]`. -/
theorem wrapRun_mem (mx : ℚ) (hmx : 0 ≤ mx) (dts : List ℚ) (h : ∀ d ∈ dts, 0 ≤ d) :
    0 ≤ wrapRun mx dts ∧ wrapRun mx dts ≤ mx := by
  suffices H : ∀ l : List ℚ, (∀ d ∈ l, 0 ≤ d) →
      ∀ c : ℚ, 0 ≤ c → c ≤ mx → 0 ≤ l.foldl (wrapStep mx) c ∧ l.foldl (wrapStep mx) c ≤ mx by
    exact H dts h 0 le_rfl hmx
  intro l
  induction l with
  | nil => intro _ c hc hcm; exact ⟨hc, hcm⟩
  | cons d l ih =>
    intro hmem c hc hcm
    have hd : 0 ≤ d := hmem d (by simp)
    obtain ⟨h1, h2⟩ := wrapStep_mem mx c d hmx hc hd
    exact ih (fun x hx => hmem x (by simp [hx])) _ h1 h2

/-- The wrapping timer resets to 0 exactly when the accumulated time
strictly exceeds `max` (or already lands on 0). -/
theorem wrapStep_eq_zero_iff (mx c dt : ℚ) :
    wrapStep mx c dt = 0 ↔ mx < c + dt ∨ c + dt = 0 := by
  show (if c + dt > mx then 0 else c + dt) = 0 ↔ mx < c + dt ∨ c + dt = 0
  split_ifs with h
  · simp [h]
  · simp [h]

/-! Preservation lemmas for the `Sound.h` phases: none of the reaction
loops or the early phases touch the `Collisions` vector, and only the
level-end reactions (under the E key) can set `exited`. -/

theorem SH.timerPhase_collisions (dt : ℚ) (s : SH.State) :
    (SH.timerPhase dt s).collisions = s.collisions := by
  unfold SH.timerPhase; split_ifs <;> rfl

theorem SH.timerPhase_exited (dt : ℚ) (s : SH.State) :
    (SH.timerPhase dt s).exited = s.exited := by
  unfold SH.timerPhase; split_ifs <;> rfl

theorem SH.inputPhase_keeps_collisions (inp : Input) (s : SH.State) :
    (SH.inputPhase inp s).collisions = s.collisions := by
  unfold SH.inputPhase
  simp only [apply_ite (SH.State.collisions), ite_self]

theorem SH.inputPhase_exited (inp : Input) (s : SH.State) :
    (SH.inputPhase inp s).exited = s.exited := by
  unfold SH.inputPhase
  simp only [apply_ite (SH.State.exited), ite_self]

theorem SH.animPhase_collisions (time : ℚ) (s : SH.State) :
    (SH.animPhase time s).collisions = s.collisions := by
  unfold SH.animPhase; split_ifs <;> rfl

theorem SH.animPhase_exited (time : ℚ) (s : SH.State) :
    (SH.animPhase time s).exited = s.exited := by
  unfold SH.animPhase; split_ifs <;> rfl

theorem SH.step_1_3_collisions (reg : Registry) (t : ℚ) (l : List SMI_Collision)
    (s : SH.State) : (l.foldl (SH.step_1_3 reg t) s).collisions = s.collisions :=
  foldl_preserves _ _ (fun s col => by unfold SH.step_1_3; split_ifs <;> rfl) l s

theorem SH.step_1_3_exited (reg : Registry) (t : ℚ) (l : List SMI_Collision)
    (s : SH.State) : (l.foldl (SH.step_1_3 reg t) s).exited = s.exited :=
  foldl_preserves _ _ (fun s col => by unfold SH.step_1_3; split_ifs <;> rfl) l s

theorem SH.step_4_5_collisions (reg : Registry) (t : ℚ) (l : List SMI_Collision)
    (s : SH.State) : (l.foldl (SH.step_4_5 reg t) s).collisions = s.collisions :=
  foldl_preserves _ _ (fun s col => by unfold SH.step_4_5; split_ifs <;> rfl) l s

theorem SH.step_4_5_exited (reg : Registry) (t : ℚ) (l : List SMI_Collision)
    (s : SH.State) : (l.foldl (SH.step_4_5 reg t) s).exited = s.exited :=
  foldl_preserves _ _ (fun s col => by unfold SH.step_4_5; split_ifs <;> rfl) l s

theorem SH.step_1_6_collisions (reg : Registry) (t : ℚ) (l : List SMI_Collision)
    (s : SH.State) : (l.foldl (SH.step_1_6 reg t) s).collisions = s.collisions :=
  foldl_preserves _ _ (fun s col => by unfold SH.step_1_6; split_ifs <;> rfl) l s

theorem SH.step_1_6_exited (reg : Registry) (t : ℚ) (l : List SMI_Collision)
    (s : SH.State) : (l.foldl (SH.step_1_6 reg t) s).exited = s.exited :=
  foldl_preserves _ _ (fun s col => by unfold SH.step_1_6; split_ifs <;> rfl) l s

theorem SH.step_10_11_collisions (reg : Registry) (l : List SMI_Collision)
    (s : SH.State) : (l.foldl (SH.step_10_11 reg) s).collisions = s.collisions :=
  foldl_preserves _ _ (fun s col => by unfold SH.step_10_11; split_ifs <;> rfl) l s

theorem SH.step_10_11_exited (reg : Registry) (l : List SMI_Collision)
    (s : SH.State) : (l.foldl (SH.step_10_11 reg) s).exited = s.exited :=
  foldl_preserves _ _ (fun s col => by unfold SH.step_10_11; split_ifs <;> rfl) l s

theorem SH.step_1_12_collisions (reg : Registry) (l : List SMI_Collision)
    (s : SH.State) : (l.foldl (SH.step_1_12 reg) s).collisions = s.collisions :=
  foldl_preserves _ _ (fun s col => by unfold SH.step_1_12; split_ifs <;> rfl) l s

theorem SH.step_1_12_exited (reg : Registry) (l : List SMI_Collision)
    (s : SH.State) : (l.foldl (SH.step_1_12 reg) s).exited = s.exited :=
  foldl_preserves _ _ (fun s col => by unfold SH.step_1_12; split_ifs <;> rfl) l s

theorem SH.step_1_13_collisions (reg : Registry) (l : List SMI_Collision)
    (s : SH.State) : (l.foldl (SH.step_1_13 reg) s).collisions = s.collisions :=
  foldl_preserves _ _ (fun s col => by unfold SH.step_1_13; split_ifs <;> rfl) l s

theorem SH.step_1_13_exited (reg : Registry) (l : List SMI_Collision)
    (s : SH.State) : (l.foldl (SH.step_1_13 reg) s).exited = s.exited :=
  foldl_preserves _ _ (fun s col => by unfold SH.step_1_13; split_ifs <;> rfl) l s

theorem SH.step_15_13_collisions (reg : Registry) (l : List SMI_Collision)
    (s : SH.State) : (l.foldl (SH.step_15_13 reg) s).collisions = s.collisions :=
  foldl_preserves _ _ (fun s col => by unfold SH.step_15_13; split_ifs <;> rfl) l s

theorem SH.step_15_13_exited (reg : Registry) (l : List SMI_Collision)
    (s : SH.State) : (l.foldl (SH.step_15_13 reg) s).exited = s.exited :=
  foldl_preserves _ _ (fun s col => by unfold SH.step_15_13; split_ifs <;> rfl) l s

theorem SH.endStep_collisions (reg : Registry) (inp : Input) (tag : Int)
    (m : SH.State → Vec3) (l : List SMI_Collision) (s : SH.State) :
    (l.foldl (SH.endStep reg inp tag m) s).collisions = s.collisions :=
  foldl_preserves _ _ (fun s col => by unfold SH.endStep; split_ifs <;> rfl) l s

theorem SH.endStep_exited (reg : Registry) (inp : Input) (tag : Int)
    (m : SH.State → Vec3) (hE : inp.keyE = false) (l : List SMI_Collision)
    (s : SH.State) : (l.foldl (SH.endStep reg inp tag m) s).exited = s.exited :=
  foldl_preserves _ _
    (fun s col => by unfold SH.endStep; split_ifs <;> simp_all) l s

theorem SH.baseUpdate_exited (phys : PhysicsOracle) (s : SH.State) :
    (SH.baseUpdate phys s).exited = s.exited := by
  unfold SH.baseUpdate; split_ifs <;> rfl

theorem SH.baseUpdate_collisions (phys : PhysicsOracle) (s : SH.State)
    (hex : s.exited = false) : (SH.baseUpdate phys s).collisions = phys.records := by
  unfold SH.baseUpdate; simp [hex]

theorem SH.groundedReset_exited (s : SH.State) :
    (SH.groundedReset s).exited = s.exited := by
  unfold SH.groundedReset; split_ifs <;> rfl

theorem SH.groundedReset_collisions (s : SH.State) :
    (SH.groundedReset s).collisions = s.collisions := by
  unfold SH.groundedReset; split_ifs <;> rfl

theorem SH.groundedReset_grounded (s : SH.State) (hex : s.exited = false) :
    (SH.groundedReset s).grounded = false := by
  unfold SH.groundedReset; simp [hex]

/-- Closed form of the `Collider` pass on the `Sound.h` scene state for a
call that did not `exit(1)`. -/
theorem SH.colliderPhase_closed (reg : Registry) (s : SH.State) (hex : s.exited = false) :
    SH.colliderPhase reg s =
      if s.collisions.any (isGroundPair reg) then
        { s with grounded := true, CurrentMidAirJump := 0 }
      else s := by
  unfold SH.colliderPhase
  rw [if_neg (by simp [hex]), Collider_eq]
  by_cases h : s.collisions.any (isGroundPair reg) = true <;> simp [h]

/-! Structural lemmas for the `part_003` variant. -/

/-- `part_003`'s `Update` as the explicit composition of its phases. -/
theorem P3.Update_comp (reg : Registry) (phys : PhysicsOracle) (inp : Input) (dt : ℚ)
    (s : P3.State) :
    P3.Update reg phys inp dt s =
      P3.colliderPhase reg (P3.groundedReset (P3.baseUpdate phys
        (P3.lerpPhase (P3.inputPhase inp (P3.timerPhase dt s))))) := rfl

/-- Closed form of the `Collider` pass on the `part_003` scene state. -/
theorem P3.colliderPhase_eq (reg : Registry) (s : P3.State) :
    P3.colliderPhase reg s =
      if s.collisions.any (isGroundPair reg) then
        { s with grounded := true, CurrentMidAirJump := 0 }
      else s := by
  unfold P3.colliderPhase
  rw [Collider_eq]
  by_cases h : s.collisions.any (isGroundPair reg) = true <;> simp [h]

/-- What the `part_003` input phase does to the impulse accumulator: the
jump impulse `(0,0,8)` is added exactly under the edge-trigger-and-guard
condition. -/
theorem P3.inputPhase_impulse (inp : Input) (s : P3.State) :
    (P3.inputPhase inp s).playerImpulse =
      (if inp.keySpace && !s.JumpState
          && (s.grounded || decide (s.CurrentMidAirJump < s.MidAirJump))
       then s.playerImpulse.add ⟨0, 0, 8⟩ else s.playerImpulse) := by
  unfold P3.inputPhase
  simp only [apply_ite P3.State.playerImpulse, apply_ite P3.State.JumpState,
    apply_ite P3.State.grounded, apply_ite P3.State.CurrentMidAirJump,
    apply_ite P3.State.MidAirJump, ite_self]

/-- What the `part_003` input phase does to the mid-air-jump counter:
incremented by one exactly when the jump fires while airborne. -/
theorem P3.inputPhase_Cur (inp : Input) (s : P3.State) :
    (P3.inputPhase inp s).CurrentMidAirJump =
      (if inp.keySpace && !s.JumpState
          && (s.grounded || decide (s.CurrentMidAirJump < s.MidAirJump))
       then (if !s.grounded then s.CurrentMidAirJump + 1 else s.CurrentMidAirJump)
       else s.CurrentMidAirJump) := by
  unfold P3.inputPhase
  simp only [apply_ite P3.State.playerImpulse, apply_ite P3.State.JumpState,
    apply_ite P3.State.grounded, apply_ite P3.State.CurrentMidAirJump,
    apply_ite P3.State.MidAirJump, ite_self]

theorem P3.inputPhase_Mid (inp : Input) (s : P3.State) :
    (P3.inputPhase inp s).MidAirJump = s.MidAirJump := by
  unfold P3.inputPhase
  simp only [apply_ite P3.State.MidAirJump, ite_self]

theorem P3.inputPhase_grounded (inp : Input) (s : P3.State) :
    (P3.inputPhase inp s).grounded = s.grounded := by
  unfold P3.inputPhase
  simp only [apply_ite P3.State.grounded, ite_self]

theorem P3.inputPhase_collisions (inp : Input) (s : P3.State) :
    (P3.inputPhase inp s).collisions = s.collisions := by
  unfold P3.inputPhase
  simp only [apply_ite P3.State.collisions, ite_self]

/-- Adding a nonzero-z vector never fixes a vector. -/
theorem Vec3.add_z_ne (v : Vec3) (k : ℚ) (hk : k ≠ 0) : v.add ⟨0, 0, k⟩ ≠ v := by
  intro h
  have hz := congrArg Vec3.z h
  simp only [Vec3.add] at hz
  exact hk (by linarith)

/-- After `part_003`'s `Update`, `grounded` is the ground-pair scan of this
step's records, and finding a pair zeroes the counter. -/
theorem P3.Update_grounded_eq (reg : Registry) (phys : PhysicsOracle) (inp : Input)
    (dt : ℚ) (s : P3.State) :
    ((P3.Update reg phys inp dt s).grounded = phys.records.any (isGroundPair reg)) ∧
    (phys.records.any (isGroundPair reg) = true →
      (P3.Update reg phys inp dt s).CurrentMidAirJump = 0) := by
  rw [P3.Update_comp, P3.colliderPhase_eq]
  constructor
  · cases hb : phys.records.any (isGroundPair reg) <;>
      simp [P3.groundedReset, P3.baseUpdate, hb]
  · intro hb
    simp [P3.groundedReset, P3.baseUpdate, hb]

/-- `part_003`'s `Update` leaves `MidAirJump` untouched. -/
theorem P3.Update_Mid (reg : Registry) (phys : PhysicsOracle) (inp : Input)
    (dt : ℚ) (s : P3.State) :
    (P3.Update reg phys inp dt s).MidAirJump = s.MidAirJump := by
  rw [P3.Update_comp, P3.colliderPhase_eq]
  simp [P3.groundedReset, P3.baseUpdate, P3.lerpPhase, P3.timerPhase,
    apply_ite P3.State.MidAirJump, ite_self, P3.inputPhase_Mid]

/-- The counter after `part_003`'s `Update`: zeroed if the fresh records
hold a ground pair, otherwise whatever the input phase left. -/
theorem P3.Update_Cur (reg : Registry) (phys : PhysicsOracle) (inp : Input)
    (dt : ℚ) (s : P3.State) :
    (P3.Update reg phys inp dt s).CurrentMidAirJump =
      (if phys.records.any (isGroundPair reg) then 0
       else (P3.inputPhase inp (P3.timerPhase dt s)).CurrentMidAirJump) := by
  rw [P3.Update_comp, P3.colliderPhase_eq]
  cases hb : phys.records.any (isGroundPair reg) <;>
    simp [P3.groundedReset, P3.baseUpdate, P3.lerpPhase, hb]

/-- The timer phase leaves every jump observable untouched. -/
theorem P3.timerPhase_jumpvars (dt : ℚ) (s : P3.State) :
    (P3.timerPhase dt s).CurrentMidAirJump = s.CurrentMidAirJump ∧
    (P3.timerPhase dt s).MidAirJump = s.MidAirJump ∧
    (P3.timerPhase dt s).grounded = s.grounded ∧
    (P3.timerPhase dt s).JumpState = s.JumpState ∧
    (P3.timerPhase dt s).playerImpulse = s.playerImpulse := by
  exact ⟨rfl, rfl, rfl, rfl, rfl⟩

/-- For a completed (non-exiting) call, the `Sound.h` `Update` computes
`grounded` and the counter from this step's records the same way. -/
theorem SH.update_grounded_closed (reg : Registry) (phys : PhysicsOracle) (inp : Input)
    (dt : ℚ) (s : SH.State) (hex : s.exited = false) (hE : inp.keyE = false) :
    ((SH.Update reg phys inp dt s).grounded = phys.records.any (isGroundPair reg)) ∧
    (phys.records.any (isGroundPair reg) = true →
      (SH.Update reg phys inp dt s).CurrentMidAirJump = 0) := by
  unfold SH.Update SH.UpdateT
  simp only [hex, Bool.false_eq_true, if_false]
  have hx17 :
      ∀ u : SH.State, u.exited = false →
        (SH.groundedReset (SH.baseUpdate phys u)).exited = false := by
    intro u hu
    rw [SH.groundedReset_exited, SH.baseUpdate_exited, hu]
  have hchain : ∀ u : SH.State, u.exited = false →
      ((SH.colliderPhase reg (SH.groundedReset (SH.baseUpdate phys u))).grounded =
          phys.records.any (isGroundPair reg)) ∧
      (phys.records.any (isGroundPair reg) = true →
        (SH.colliderPhase reg (SH.groundedReset (SH.baseUpdate phys u))).CurrentMidAirJump
          = 0) := by
    intro u hu
    rw [SH.colliderPhase_closed _ _ (hx17 u hu)]
    have hcols : (SH.groundedReset (SH.baseUpdate phys u)).collisions = phys.records := by
      rw [SH.groundedReset_collisions, SH.baseUpdate_collisions _ _ hu]
    have hg : (SH.groundedReset (SH.baseUpdate phys u)).grounded = false :=
      SH.groundedReset_grounded _ (by rw [SH.baseUpdate_exited, hu])
    rw [hcols]
    constructor
    · cases hb : phys.records.any (isGroundPair reg) <;>
        simp [hb, hg]
    · intro hb; simp [hb]
  apply hchain
  simp only [SH.endStep_exited _ _ _ _ hE, SH.step_15_13_exited, SH.step_1_13_exited,
    SH.step_1_12_exited, SH.step_10_11_exited, SH.step_1_6_exited, SH.step_4_5_exited,
    SH.step_1_3_exited, SH.animPhase_exited, SH.inputPhase_exited, SH.timerPhase_exited]

/-! Claim theorems. -/

/-- C1: for every completed call of `GameScene1::Update`, `grounded == true`
iff the Collision Records harvested that frame contain a pair of entities
whose Physics Body identity tags are 1 and 2, in either order; and whenever
such a pair is found, `CurrentMidAirJump` is reset to 0.  Proved for the
`part_003` variant, and for the `Sound.h` variant on calls that complete
(no `exit(1)`, guaranteed here by the E key not being held). -/
theorem C1_grounded_invariant (reg : Registry) (phys : PhysicsOracle) (inp : Input)
    (dt : ℚ) :
    (∀ s : P3.State,
      ((P3.Update reg phys inp dt s).grounded = true ↔
        ∃ col ∈ phys.records, isGroundPair reg col = true) ∧
      ((∃ col ∈ phys.records, isGroundPair reg col = true) →
        (P3.Update reg phys inp dt s).CurrentMidAirJump = 0)) ∧
    (∀ s : SH.State, s.exited = false → inp.keyE = false →
      ((SH.Update reg phys inp dt s).grounded = true ↔
        ∃ col ∈ phys.records, isGroundPair reg col = true) ∧
      ((∃ col ∈ phys.records, isGroundPair reg col = true) →
        (SH.Update reg phys inp dt s).CurrentMidAirJump = 0)) := by
  constructor
  · intro s
    obtain ⟨h1, h2⟩ := P3.Update_grounded_eq reg phys inp dt s
    constructor
    · rw [h1, List.any_eq_true]
    · intro hex
      exact h2 (List.any_eq_true.mpr hex)
  · intro s hx hE
    obtain ⟨h1, h2⟩ := SH.update_grounded_closed reg phys inp dt s hx hE
    constructor
    · rw [h1, List.any_eq_true]
    · intro hex
      exact h2 (List.any_eq_true.mpr hex)

/-- Witness for C1 at a concrete scene: landing on the ground pair sets
`grounded` and zeroes the counter in both variants. -/
theorem C1_grounded_invariant_witness :
    (P3.Update regW physW inpW 1 p3s0).grounded = true ∧
    (P3.Update regW physW inpW 1 p3s0).CurrentMidAirJump = 0 ∧
    (SH.Update regW physW inpW 1 shs0).grounded = true ∧
    (SH.Update regW physW inpW 1 shs0).CurrentMidAirJump = 0 := by
  obtain ⟨hP, hS⟩ := C1_grounded_invariant regW physW inpW 1
  obtain ⟨h1, h2⟩ := hP p3s0
  obtain ⟨h3, h4⟩ := hS shs0 (by decide) (by decide)
  have hpair : ∃ col ∈ physW.records, isGroundPair regW col = true :=
    ⟨⟨1, 2⟩, by decide, by decide⟩
  exact ⟨h1.mpr hpair, h2 hpair, h3.mpr hpair, h4 hpair⟩

/-- C2: in `GameScene1::Update`, a jump impulse is applied iff the jump key
transitions released→pressed and (`grounded` or
`CurrentMidAirJump < MidAirJump`); applying it while airborne increments
`CurrentMidAirJump` by exactly 1 (grounded jumps leave it unchanged); and
with `MidAirJump = 1`, a second airborne press at `CurrentMidAirJump = 1`
applies no further impulse. -/
theorem C2_jump_gating (inp : Input) (s : P3.State) :
    ((P3.inputPhase inp s).playerImpulse = s.playerImpulse.add ⟨0, 0, 8⟩ ↔
      (inp.keySpace = true ∧ s.JumpState = false ∧
        (s.grounded = true ∨ s.CurrentMidAirJump < s.MidAirJump))) ∧
    ((P3.inputPhase inp s).playerImpulse ≠ s.playerImpulse.add ⟨0, 0, 8⟩ →
      (P3.inputPhase inp s).playerImpulse = s.playerImpulse) ∧
    ((P3.inputPhase inp s).playerImpulse = s.playerImpulse.add ⟨0, 0, 8⟩ →
      (P3.inputPhase inp s).CurrentMidAirJump =
        (if s.grounded then s.CurrentMidAirJump else s.CurrentMidAirJump + 1)) ∧
    (s.MidAirJump = 1 → s.grounded = false → s.CurrentMidAirJump = 1 →
      (P3.inputPhase inp s).playerImpulse = s.playerImpulse ∧
      (P3.inputPhase inp s).CurrentMidAirJump = s.CurrentMidAirJump) := by
  have hne : s.playerImpulse.add ⟨0, 0, 8⟩ ≠ s.playerImpulse :=
    Vec3.add_z_ne s.playerImpulse 8 (by norm_num)
  have him := P3.inputPhase_impulse inp s
  have hcur := P3.inputPhase_Cur inp s
  by_cases hc : (inp.keySpace && !s.JumpState
      && (s.grounded || decide (s.CurrentMidAirJump < s.MidAirJump))) = true
  · rw [if_pos hc] at him
    rw [if_pos hc] at hcur
    have hcond : inp.keySpace = true ∧ s.JumpState = false ∧
        (s.grounded = true ∨ s.CurrentMidAirJump < s.MidAirJump) := by
      simp only [Bool.and_eq_true, Bool.or_eq_true, Bool.not_eq_true',
        decide_eq_true_eq] at hc
      exact ⟨hc.1.1, hc.1.2, hc.2⟩
    refine ⟨⟨fun _ => hcond, fun _ => him⟩, fun hne2 => absurd him hne2, ?_, ?_⟩
    · intro _
      rw [hcur]
      cases hg : s.grounded <;> simp [hg]
    · intro h1 h2 h3
      exfalso
      rw [h2, h3, h1] at hc
      simp at hc
  · rw [if_neg hc] at him
    rw [if_neg hc] at hcur
    refine ⟨⟨?_, ?_⟩, fun _ => him, ?_, ?_⟩
    · intro habs
      rw [him] at habs
      exact absurd habs.symm hne
    · rintro ⟨h1, h2, h3⟩
      exfalso
      apply hc
      simp only [Bool.and_eq_true, Bool.or_eq_true, Bool.not_eq_true',
        decide_eq_true_eq]
      exact ⟨⟨h1, h2⟩, h3⟩
    · intro habs
      rw [him] at habs
      exact absurd habs.symm hne
    · intro _ _ _
      exact ⟨him, hcur⟩

/-- Witness for C2, Scenario B: an airborne press at counter 0 applies the
impulse and sets the counter to 1; a later airborne press at counter 1
applies nothing. -/
theorem C2_jump_gating_witness :
    ((P3.inputPhase inpSpace
        { p3s0 with grounded := false, CurrentMidAirJump := 0 }).playerImpulse =
      Vec3.add ⟨0, 0, 0⟩ ⟨0, 0, 8⟩) ∧
    ((P3.inputPhase inpSpace
        { p3s0 with grounded := false, CurrentMidAirJump := 0 }).CurrentMidAirJump = 1) ∧
    ((P3.inputPhase inpSpace
        { p3s0 with grounded := false, CurrentMidAirJump := 1 }).playerImpulse =
      ⟨0, 0, 0⟩) := by
  obtain ⟨h1, _, h3, _⟩ :=
    C2_jump_gating inpSpace { p3s0 with grounded := false, CurrentMidAirJump := 0 }
  obtain ⟨_, _, _, h4⟩ :=
    C2_jump_gating inpSpace { p3s0 with grounded := false, CurrentMidAirJump := 1 }
  have happ := h1.mpr ⟨by decide, by decide, Or.inr (by decide)⟩
  refine ⟨happ, ?_, ?_⟩
  · have := h3 happ
    rw [this]
    decide
  · exact (h4 rfl rfl rfl).1

/-- C10: every call of the `part_003` `GameScene1::Update` preserves
`0 ≤ CurrentMidAirJump ≤ MidAirJump`, and the member initializers start the
counter at 0. -/
theorem C10_counter_bounds (reg : Registry) (phys : PhysicsOracle) (inp : Input)
    (dt : ℚ) (s : P3.State) (h0 : 0 ≤ s.CurrentMidAirJump)
    (h1 : s.CurrentMidAirJump ≤ s.MidAirJump) :
    (0 ≤ (P3.Update reg phys inp dt s).CurrentMidAirJump ∧
      (P3.Update reg phys inp dt s).CurrentMidAirJump ≤
        (P3.Update reg phys inp dt s).MidAirJump) ∧
    (∀ p cm d : Vec3, (P3.mkInit p cm d).CurrentMidAirJump = 0) := by
  refine ⟨?_, fun p cm d => rfl⟩
  have hcomp : (P3.inputPhase inp (P3.timerPhase dt s)).CurrentMidAirJump =
      (if inp.keySpace && !s.JumpState
          && (s.grounded || decide (s.CurrentMidAirJump < s.MidAirJump))
       then (if !s.grounded then s.CurrentMidAirJump + 1 else s.CurrentMidAirJump)
       else s.CurrentMidAirJump) := P3.inputPhase_Cur inp (P3.timerPhase dt s)
  rw [P3.Update_Cur, P3.Update_Mid]
  by_cases hb : phys.records.any (isGroundPair reg) = true
  · rw [if_pos hb]
    constructor
    · exact le_refl 0
    · exact le_trans h0 h1
  · rw [if_neg hb, hcomp]
    by_cases hc : (inp.keySpace && !s.JumpState
        && (s.grounded || decide (s.CurrentMidAirJump < s.MidAirJump))) = true
    · rw [if_pos hc]
      by_cases hg : (!s.grounded) = true
      · rw [if_pos hg]
        have hlt : s.CurrentMidAirJump < s.MidAirJump := by
          simp only [Bool.and_eq_true, Bool.or_eq_true, Bool.not_eq_true',
            decide_eq_true_eq] at hc
          rcases hc.2 with hgr | hlt
          · rw [Bool.not_eq_true'] at hg
            rw [hg] at hgr
            exact absurd hgr (by simp)
          · exact hlt
        omega
      · rw [if_neg hg]
        exact ⟨h0, h1⟩
    · rw [if_neg hc]
      exact ⟨h0, h1⟩

/-- Witness for C10 at the initial state. -/
theorem C10_counter_bounds_witness :
    0 ≤ (P3.Update regW physW inpSpace 1 p3s0).CurrentMidAirJump ∧
    (P3.Update regW physW inpSpace 1 p3s0).CurrentMidAirJump ≤
      (P3.Update regW physW inpSpace 1 p3s0).MidAirJump :=
  (C10_counter_bounds regW physW inpSpace 1 p3s0 (by decide) (by decide)).1

/-- C5 (corrected): the clamped timer variant is exact — for nonnegative
frame deltas totalling at least `duration`, `t = current/max` equals 1
with no overshoot.  The wrapping timer `c`, however, only guarantees
`t ∈ [0, 1]` (it attains 1 when the accumulated time lands exactly on
`duration`), and it resets to 0 exactly when the accumulated time
strictly exceeds `duration`, discarding the overshoot — so resets are
not exactly `duration` apart in general. -/
theorem C5_interpolation_amended (mx : ℚ) (dts : List ℚ) (hmx : 0 < mx)
    (hnn : ∀ d ∈ dts, 0 ≤ d) :
    (mx ≤ dts.sum → clampRun mx dts = mx ∧ clampRun mx dts / mx = 1) ∧
    (0 ≤ wrapRun mx dts / mx ∧ wrapRun mx dts / mx ≤ 1) ∧
    (∀ cv dt : ℚ, wrapStep mx cv dt = 0 ↔ mx < cv + dt ∨ cv + dt = 0) := by
  refine ⟨?_, ?_, fun cv dt => wrapStep_eq_zero_iff mx cv dt⟩
  · intro hsum
    have h1 : clampRun mx dts = mx := by
      rw [clampRun_eq_min mx hmx.le dts hnn, min_eq_right hsum]
    exact ⟨h1, by rw [h1, div_self hmx.ne.symm]⟩
  · obtain ⟨h1, h2⟩ := wrapRun_mem mx hmx.le dts hnn
    constructor
    · exact div_nonneg h1 hmx.le
    · rw [div_le_one hmx]
      exact h2

/-- Counterexample to C5's wrapping clause: with `duration = 5`, after
frame deltas 3 and 2 (exactly `duration` seconds of elapsed time) the
wrapping timer holds 5, so `t = 1`, which is not in `[0, 1)`, and the
timer has not returned to 0 after exactly `duration` seconds. -/
theorem C5_counterexample :
    wrapRun 5 [3, 2] = 5 ∧ ((3 : ℚ) + 2 = 5) ∧ ¬(wrapRun 5 [3, 2] / 5 < 1) := by
  refine ⟨?_, by norm_num, ?_⟩ <;> norm_num [wrapRun, wrapStep]

/-- Witness for C5 at `duration = 5` with frame deltas 3 and 2. -/
theorem C5_interpolation_amended_witness :
    clampRun 5 [3, 2] = 5 ∧ clampRun 5 [3, 2] / 5 = 1 ∧
    0 ≤ wrapRun 5 [3, 2] / 5 ∧ wrapRun 5 [3, 2] / 5 ≤ 1 := by
  obtain ⟨h1, h2, _⟩ := C5_interpolation_amended 5 [3, 2] (by norm_num)
    (by intro d hd; fin_cases hd <;> norm_num)
  obtain ⟨ha, hb⟩ := h1 (by norm_num)
  exact ⟨ha, hb, h2.1, h2.2⟩

/-- C6: attaching a Physics Body (`Attach` or `AttachCopy` with
`T = SMI_Physics`) synchronously registers the body's rigid body with the
Scene's Physics World, records the entity back-reference, and sets the
"in world" flag; a freshly created body ends up registered exactly once. -/
theorem C6_attach_registration (sc : SceneReg) (e : Entity) (phys : SMI_Physics)
    (hfresh : phys.body ∉ sc.world) :
    ((AttachCopy sc e phys).store e = some { phys with entity := e, inWorld := true } ∧
      (AttachCopy sc e phys).world.count phys.body = 1) ∧
    ((Attach phys sc e).store e = some { phys with entity := e, inWorld := true } ∧
      (Attach phys sc e).world.count phys.body = 1) := by
  have hcount : (sc.world ++ [phys.body]).count phys.body = 1 := by
    rw [List.count_append, List.count_eq_zero.mpr hfresh]
    simp
  exact ⟨⟨by simp [AttachCopy], hcount⟩, ⟨by simp [Attach], hcount⟩⟩

/-- Witness for C6: attaching body 9 to entity 4 of an empty scene. -/
theorem C6_attach_registration_witness :
    (AttachCopy ⟨fun _ => none, []⟩ 4 ⟨9, 0, false, 1⟩).store 4 =
      some ⟨9, 4, true, 1⟩ ∧
    (AttachCopy ⟨fun _ => none, []⟩ 4 ⟨9, 0, false, 1⟩).world.count 9 = 1 := by
  obtain ⟨⟨h1, h2⟩, _⟩ :=
    C6_attach_registration ⟨fun _ => none, []⟩ 4 ⟨9, 0, false, 1⟩ (by simp)
  exact ⟨h1, h2⟩

/-- Counterexample to C7's ordering clause: in `Remove`'s resource-event
trace the motion state and collision shape are destroyed BEFORE the body
is deregistered from the Physics World, so the claimed
"deregistration before the native body and its shape/motion-state are
destroyed" fails on the shape/motion-state half. -/
theorem C7_counterexample : deregBeforeRelease ((Remove scC7 5).2) 3 = false := by
  decide

/-- C7 (corrected): `Remove<SMI_Physics>` destroys the motion state and
collision shape first, then deregisters the body, then destroys the body
and drops the component — so deregistration precedes the destruction of
the native body (but not of its shape/motion-state); and registration is
symmetric: after attach-then-remove, the Physics World's count of that
body equals the count before attachment, and the component is gone. -/
theorem C7_remove_amended (sc : SceneReg) (e : Entity) (phys : SMI_Physics) :
    (Remove (AttachCopy sc e phys) e).2 =
      [ResEv.destroyMotionState phys.body, ResEv.destroyShape phys.body,
       ResEv.deregister phys.body, ResEv.destroyBody phys.body,
       ResEv.dropComponent e] ∧
    (Remove (AttachCopy sc e phys) e).1.world.count phys.body =
      sc.world.count phys.body ∧
    (Remove (AttachCopy sc e phys) e).1.store e = none := by
  have hstore : (AttachCopy sc e phys).store e =
      some { phys with entity := e, inWorld := true } := by
    simp [AttachCopy]
  refine ⟨?_, ?_, ?_⟩
  · simp [Remove, hstore]
  · have hred : (Remove (AttachCopy sc e phys) e).1.world =
        (sc.world ++ [phys.body]).erase phys.body := by
      simp [Remove, hstore, AttachCopy]
    rw [hred, List.count_erase_self, List.count_append]
    simp
  · simp [Remove, hstore]

/-- C8: a Collision Record holding an entity handle that is no longer
valid in the registry is skipped — the reaction pass leaves the state
unchanged for it and continues with the remaining records — in the
`Collider` pass and in the `Sound.h` dispatch loops alike. -/
theorem C8_invalid_skipped (reg : Registry) (col : SMI_Collision)
    (rest : List SMI_Collision)
    (h : reg.valid col.b1 = false ∨ reg.valid col.b2 = false) :
    (∀ s : JumpVars, Collider reg (col :: rest) s = Collider reg rest s) ∧
    (∀ (t : ℚ) (sh : SH.State),
      (col :: rest).foldl (SH.step_1_3 reg t) sh = rest.foldl (SH.step_1_3 reg t) sh) ∧
    (∀ (inp : Input) (tag : Int) (m : SH.State → Vec3) (sh : SH.State),
      (col :: rest).foldl (SH.endStep reg inp tag m) sh =
        rest.foldl (SH.endStep reg inp tag m) sh) := by
  have hvalid : (reg.valid col.b1 && reg.valid col.b2) = false := by
    rcases h with h | h <;> simp [h]
  refine ⟨?_, ?_, ?_⟩
  · intro s
    simp only [Collider, List.foldl_cons]
    congr 1
    unfold colliderStep
    rw [hvalid]
    simp
  · intro t sh
    simp only [List.foldl_cons]
    congr 1
    unfold SH.step_1_3
    rw [hvalid]
    simp
  · intro inp tag m sh
    simp only [List.foldl_cons]
    congr 1
    unfold SH.endStep
    rw [hvalid]
    simp

/-- Witness for C8: a stale record referencing invalid entities leaves the
jump variables untouched. -/
theorem C8_invalid_skipped_witness :
    Collider regC4 [⟨1, 2⟩] ⟨false, 0⟩ = ⟨false, 0⟩ :=
  (C8_invalid_skipped regC4 ⟨1, 2⟩ [] (Or.inl (by decide))).1 ⟨false, 0⟩

/-- One step of the (1,3) loop, as a conjoined-condition conditional. -/
theorem SH.step_1_3_eq (reg : Registry) (t : ℚ) (s : SH.State) (col : SMI_Collision)
    (hex : s.exited = false) :
    SH.step_1_3 reg t s col =
      if reg.valid col.b1 && reg.valid col.b2
          && (reg.identity col.b1 == 1 && reg.identity col.b2 == 3) then
        { s with door2Pos := Lerp ⟨-151, 7, 2.5⟩ ⟨151, 7, 6.5⟩ t,
                 buttonPos := Lerp ⟨-158, 6.7, 2.1⟩ ⟨-158, -34.7, 2.1⟩ t,
                 button1Pos := Lerp ⟨-158, -34.7, 2.1⟩ ⟨-158, 6.7, 2.1⟩ t }
      else s := by
  unfold SH.step_1_3
  rw [if_neg (by simp [hex])]
  by_cases h1 : (reg.valid col.b1 && reg.valid col.b2) = true <;>
    by_cases h2 : (reg.identity col.b1 == 1 && reg.identity col.b2 == 3) = true <;>
    simp [h1, h2]

/-- Closed form of the whole (1,3) reaction loop: it applies its
fixed writes once iff some record matches, and otherwise changes
nothing. -/
theorem SH.fold_1_3_eq (reg : Registry) (t : ℚ) (cols : List SMI_Collision)
    (s : SH.State) (hex : s.exited = false) :
    cols.foldl (SH.step_1_3 reg t) s =
      if cols.any (fun col => reg.valid col.b1 && reg.valid col.b2
          && (reg.identity col.b1 == 1 && reg.identity col.b2 == 3)) then
        { s with door2Pos := Lerp ⟨-151, 7, 2.5⟩ ⟨151, 7, 6.5⟩ t,
                 buttonPos := Lerp ⟨-158, 6.7, 2.1⟩ ⟨-158, -34.7, 2.1⟩ t,
                 button1Pos := Lerp ⟨-158, -34.7, 2.1⟩ ⟨-158, 6.7, 2.1⟩ t }
      else s := by
  induction cols generalizing s with
  | nil => simp
  | cons col cs ih =>
    rw [List.foldl_cons, List.any_cons, SH.step_1_3_eq reg t s col hex]
    by_cases hc : (reg.valid col.b1 && reg.valid col.b2
        && (reg.identity col.b1 == 1 && reg.identity col.b2 == 3)) = true
    · rw [if_pos hc,
        ih { s with door2Pos := Lerp ⟨-151, 7, 2.5⟩ ⟨151, 7, 6.5⟩ t,
                    buttonPos := Lerp ⟨-158, 6.7, 2.1⟩ ⟨-158, -34.7, 2.1⟩ t,
                    button1Pos := Lerp ⟨-158, -34.7, 2.1⟩ ⟨-158, 6.7, 2.1⟩ t } hex]
      by_cases hcs : (cs.any (fun col => reg.valid col.b1 && reg.valid col.b2
          && (reg.identity col.b1 == 1 && reg.identity col.b2 == 3))) = true <;>
        simp [hc, hcs]
    · rw [if_neg hc, ih s hex]
      simp [hc]

/-- `List.any` is invariant under permutation of the list. -/
theorem any_perm {α : Type _} (p : α → Bool) {l l' : List α} (h : l.Perm l') :
    l.any p = l'.any p := by
  rw [Bool.eq_iff_iff]
  simp only [List.any_eq_true]
  constructor <;> rintro ⟨x, hx, hp⟩
  · exact ⟨x, h.mem_iff.mp hx, hp⟩
  · exact ⟨x, h.mem_iff.mpr hx, hp⟩

/-- Counterexample to C3: in the `Sound.h` `GameScene1::Update`, with one
Collision Record left from the previous frame and a step producing none,
reaction passes that consume records run BEFORE this call's physics step,
and they consume records that this call's step did not produce. -/
theorem C3_counterexample :
    reactionsAfterStep (SH.UpdateT regW physNone inpW 1 shs0).2 = false ∧
    consumesOwn physNone.records (SH.UpdateT regW physNone inpW 1 shs0).2 = false := by
  constructor <;> decide

/-- C3 (corrected): the `part_003` `GameScene1::Update` performs exactly
the claimed order — input, step, harvest, grounded reset, then the single
reaction pass (`Collider`) consuming this step's records.  The `Sound.h`
`GameScene1::Update`, however, runs its twelve tag-pair reaction loops
after reading input but BEFORE the physics step, so they consume whatever
records the previous step left in the `Collisions` vector; only the
grounded reset and the `Collider` pass run after this call's step and
consume its fresh records. -/
theorem C3_phase_order_amended :
    (∀ (reg : Registry) (phys : PhysicsOracle) (inp : Input) (dt : ℚ) (s : P3.State),
      (P3.UpdateT reg phys inp dt s).2 =
        [Ev.input, Ev.step, Ev.harvest, Ev.groundedReset, Ev.reaction phys.records]) ∧
    (∀ (reg : Registry) (phys : PhysicsOracle) (inp : Input) (dt : ℚ) (s : SH.State),
      s.exited = false → inp.keyE = false →
      (SH.UpdateT reg phys inp dt s).2 =
        Ev.input :: List.replicate 12 (Ev.reaction s.collisions)
          ++ [Ev.step, Ev.harvest, Ev.groundedReset, Ev.reaction phys.records]) := by
  constructor
  · intro reg phys inp dt s
    rfl
  · intro reg phys inp dt s hex hE
    unfold SH.UpdateT
    simp only [hex, Bool.false_eq_true, if_false]
    simp only [SH.evIf, SH.endStep_exited _ _ _ _ hE, SH.step_15_13_exited,
      SH.step_1_13_exited, SH.step_1_12_exited, SH.step_10_11_exited,
      SH.step_1_6_exited, SH.step_4_5_exited, SH.step_1_3_exited,
      SH.animPhase_exited, SH.inputPhase_exited, SH.timerPhase_exited,
      SH.endStep_collisions, SH.step_15_13_collisions, SH.step_1_13_collisions,
      SH.step_1_12_collisions, SH.step_10_11_collisions, SH.step_1_6_collisions,
      SH.step_4_5_collisions, SH.step_1_3_collisions, SH.animPhase_collisions,
      SH.inputPhase_keeps_collisions, SH.timerPhase_collisions, SH.baseUpdate_exited,
      SH.baseUpdate_collisions, SH.groundedReset_exited,
      SH.groundedReset_collisions, hex]
    simp [List.replicate]

/-- Witness for C3's amended statement at concrete scenes. -/
theorem C3_phase_order_amended_witness :
    (P3.UpdateT regW physW inpW 1 p3s0).2 =
      [Ev.input, Ev.step, Ev.harvest, Ev.groundedReset, Ev.reaction physW.records] ∧
    (SH.UpdateT regW physNone inpW 1 shs0).2 =
      Ev.input :: List.replicate 12 (Ev.reaction shs0.collisions)
        ++ [Ev.step, Ev.harvest, Ev.groundedReset, Ev.reaction physNone.records] := by
  obtain ⟨h1, h2⟩ := C3_phase_order_amended
  exact ⟨h1 regW physW inpW 1 p3s0, h2 regW physNone inpW 1 shs0 rfl rfl⟩

/-- Counterexample to C4: a record presenting the (1,3) tag pair with the
tag-3 entity first does NOT fire the (1,3) rule — `door2` stays put —
while the flipped record does fire it, so the dispatch does not check
both orderings for that rule. -/
theorem C4_counterexample :
    (regC4.valid 10 = true ∧ regC4.valid 11 = true ∧
      regC4.identity 10 = 3 ∧ regC4.identity 11 = 1) ∧
    (SH.step_1_3 regC4 0 shs0 ⟨10, 11⟩).door2Pos = shs0.door2Pos ∧
    (SH.step_1_3 regC4 0 shs0 ⟨11, 10⟩).door2Pos ≠ shs0.door2Pos := by
  refine ⟨by decide, by decide, ?_⟩
  have hfire : (SH.step_1_3 regC4 0 shs0 ⟨11, 10⟩).door2Pos =
      Lerp ⟨-151, 7, 2.5⟩ ⟨151, 7, 6.5⟩ 0 := rfl
  rw [hfire]
  intro h
  have hy := congrArg Vec3.y h
  norm_num [Lerp, Vec3.add, Vec3.smul, shs0] at hy

/-- C4 (corrected): the grounded rule, the level-end rules and the other
symmetric rules check both orderings of the record's identity-tag pair,
but the (1,3) rule (and likewise the (1,6) rule) checks only the single
ordering written in the code, so it fires only when the tag-1 entity is
`getB1()` and the tag-3 (resp. 6) entity is `getB2()`. -/
theorem C4_dispatch_orderings :
    (∀ (reg : Registry) (s : JumpVars) (a b : Entity),
      colliderStep reg s ⟨a, b⟩ = colliderStep reg s ⟨b, a⟩) ∧
    (∀ (reg : Registry) (s : SH.State) (a b : Entity),
      SH.step_10_11 reg s ⟨a, b⟩ = SH.step_10_11 reg s ⟨b, a⟩) ∧
    (∀ (reg : Registry) (inp : Input) (tag : Int) (m : SH.State → Vec3)
        (s : SH.State) (a b : Entity),
      SH.endStep reg inp tag m s ⟨a, b⟩ = SH.endStep reg inp tag m s ⟨b, a⟩) ∧
    (∀ (reg : Registry) (t : ℚ) (s : SH.State) (col : SMI_Collision),
      ¬(reg.identity col.b1 = 1 ∧ reg.identity col.b2 = 3) →
      SH.step_1_3 reg t s col = s) ∧
    (∀ (reg : Registry) (t : ℚ) (s : SH.State) (col : SMI_Collision),
      ¬(reg.identity col.b1 = 1 ∧ reg.identity col.b2 = 6) →
      SH.step_1_6 reg t s col = s) ∧
    (∀ (reg : Registry) (t : ℚ) (s : SH.State) (col : SMI_Collision),
      s.exited = false → reg.valid col.b1 = true → reg.valid col.b2 = true →
      reg.identity col.b1 = 1 → reg.identity col.b2 = 3 →
      (SH.step_1_3 reg t s col).door2Pos = Lerp ⟨-151, 7, 2.5⟩ ⟨151, 7, 6.5⟩ t) := by
  refine ⟨?_, ?_, ?_, ?_, ?_, ?_⟩
  · intro reg s a b
    by_cases h1 : reg.valid a = true <;> by_cases h2 : reg.valid b = true <;>
      by_cases h3 : reg.identity a = 1 <;> by_cases h4 : reg.identity b = 1 <;>
      by_cases h5 : reg.identity a = 2 <;> by_cases h6 : reg.identity b = 2 <;>
      simp_all [colliderStep]
  · intro reg s a b
    by_cases h1 : reg.valid a = true <;> by_cases h2 : reg.valid b = true <;>
      by_cases h3 : reg.identity a = 10 <;> by_cases h4 : reg.identity b = 10 <;>
      by_cases h5 : reg.identity a = 11 <;> by_cases h6 : reg.identity b = 11 <;>
      simp_all [SH.step_10_11]
  · intro reg inp tag m s a b
    by_cases h1 : reg.valid a = true <;> by_cases h2 : reg.valid b = true <;>
      by_cases h3 : reg.identity a = 1 <;> by_cases h4 : reg.identity b = 1 <;>
      by_cases h5 : reg.identity a = tag <;> by_cases h6 : reg.identity b = tag <;>
      simp_all [SH.endStep]
  · intro reg t s col h
    unfold SH.step_1_3
    split_ifs with hx hv ht
    · rfl
    · exfalso
      simp only [Bool.and_eq_true, beq_iff_eq] at ht
      exact h ht
    · rfl
    · rfl
  · intro reg t s col h
    unfold SH.step_1_6
    split_ifs with hx hv ht
    · rfl
    · exfalso
      simp only [Bool.and_eq_true, beq_iff_eq] at ht
      exact h ht
    · rfl
    · rfl
  · intro reg t s col hex hv1 hv2 h1 h3
    simp [SH.step_1_3, hex, hv1, hv2, h1, h3]

/-- Witness for C4's amended statement at concrete records. -/
theorem C4_dispatch_orderings_witness :
    colliderStep regW ⟨false, 5⟩ ⟨1, 2⟩ = colliderStep regW ⟨false, 5⟩ ⟨2, 1⟩ ∧
    SH.step_1_3 regC4 0 shs0 ⟨10, 11⟩ = shs0 ∧
    (SH.step_1_3 regC4 0 shs0 ⟨11, 10⟩).door2Pos =
      Lerp ⟨-151, 7, 2.5⟩ ⟨151, 7, 6.5⟩ 0 := by
  obtain ⟨hsym, _, _, hno, _, hfire⟩ := C4_dispatch_orderings
  exact ⟨hsym regW ⟨false, 5⟩ 1 2, hno regC4 0 shs0 ⟨10, 11⟩ (by decide),
    hfire regC4 0 shs0 ⟨11, 10⟩ rfl (by decide) (by decide) (by decide) (by decide)⟩

/-- C9: the reaction dispatch is a deterministic function of the scene
state, the input snapshot, the interpolation parameter and the Collision
Records — equal inputs give identical resulting Transform/Physics Body
state — and for the non-overlapping rules (the grounded rule and the
(1,3) rule shown here) the result is independent of the iteration order
of the Collision Records. -/
theorem C9_dispatch_deterministic :
    (∀ (reg : Registry) (inp : Input) (t : ℚ) (s₁ s₂ : SH.State), s₁ = s₂ →
      SH.dispatch reg inp t s₁ = SH.dispatch reg inp t s₂) ∧
    (∀ (reg : Registry) (cols cols' : List SMI_Collision) (s : JumpVars),
      cols.Perm cols' → Collider reg cols s = Collider reg cols' s) ∧
    (∀ (reg : Registry) (t : ℚ) (cols cols' : List SMI_Collision) (s : SH.State),
      s.exited = false → cols.Perm cols' →
      cols.foldl (SH.step_1_3 reg t) s = cols'.foldl (SH.step_1_3 reg t) s) := by
  refine ⟨fun reg inp t s₁ s₂ h => by rw [h], ?_, ?_⟩
  · intro reg cols cols' s hperm
    rw [Collider_eq, Collider_eq, any_perm (isGroundPair reg) hperm]
  · intro reg t cols cols' s hex hperm
    rw [SH.fold_1_3_eq reg t cols s hex, SH.fold_1_3_eq reg t cols' s hex,
      any_perm _ hperm]

/-- Witness for C9: rerunning the dispatch and permuting the records. -/
theorem C9_dispatch_deterministic_witness :
    SH.dispatch regW inpW 0 shs0 = SH.dispatch regW inpW 0 shs0 ∧
    Collider regW [⟨1, 2⟩, ⟨3, 4⟩] ⟨false, 1⟩ =
      Collider regW [⟨3, 4⟩, ⟨1, 2⟩] ⟨false, 1⟩ := by
  obtain ⟨h1, h2, _⟩ := C9_dispatch_deterministic
  exact ⟨h1 regW inpW 0 shs0 shs0 rfl,
    h2 regW [⟨1, 2⟩, ⟨3, 4⟩] [⟨3, 4⟩, ⟨1, 2⟩] ⟨false, 1⟩ (List.Perm.swap _ _ _)⟩

end DockWard
